import Mathlib

/-!
Shallow embedding of the chatvault extraction-and-persistence pipeline.

The Python source under `src/` is modelled definition by definition:

* `src/storage/db_writer.py`    — SQLite writer (`ensure_tables` schema is
  reflected in the row structures; `insert_chat`, `insert_message`).
* `src/storage/db_pg_writer.py` — PostgreSQL writer (`insert_chat`,
  `insert_message`, `parse_iso_date`, `parse_timestamp`).
* `src/main.py`                 — the per-conversation write loop.
* `src/extractors/time_utils.py`    — `parse_datetime`, `to_utc_iso`.
* `src/extractors/slugify_utils.py` — `transliterate`, `slugify`.
* `src/extractors/chat_extractor.py`    — the record-building tail of
  `extract_chats` (the interactive prompts become explicit answer strings).
* `src/extractors/message_extractor.py` — the id/link extraction of
  `extract_messages`.

Python dictionaries distinguish an absent key from a key bound to `None`;
`PyVal` models that three-way state, `pyGet` models `dict.get` and
`pyItem` models `dict[...]` (which raises `KeyError` on an absent key).
Library calls made by the source (`dateutil.parser`, `pytz` timezones) are
passed to the embedded functions as explicit arguments: the embedding is a
faithful transcription of the source's own control flow over those results.
-/

/-- State of one key of a Python dict: absent, bound to `None`, or bound
to a value. -/
inductive PyVal (α : Type) where
  | absent : PyVal α
  | pynone : PyVal α
  | val : α → PyVal α
deriving DecidableEq, Repr

/-- `dict.get(key)`: absent and `None` both collapse to `none`. -/
def pyGet {α : Type} : PyVal α → Option α
  | .absent => none
  | .pynone => none
  | .val a => some a

/-- `dict[key]`: `KeyError` on an absent key, otherwise the bound value
(`none` when it is `None`). -/
def pyItem {α : Type} : PyVal α → Except Unit (Option α)
  | .absent => .error ()
  | .pynone => .ok none
  | .val a => .ok (some a)

/-- `dict.get(key, default)`: the default only replaces an absent key, a
key bound to `None` still yields `None`. -/
def pyGetD {α : Type} : PyVal α → α → Option α
  | .absent, d => some d
  | .pynone, _ => none
  | .val a, _ => some a

/-- The chat dictionary built by `extract_chats` and consumed by both
`insert_chat` implementations (the bound `table` element, used only to
drive message extraction, is not part of the record). -/
structure ChatDict where
  slug : PyVal String
  chat_id : PyVal Int
  type_ : PyVal String
  name : PyVal String
  link : PyVal String
  joined : PyVal String
  is_active : PyVal Bool
  is_member : PyVal Bool
  is_public : PyVal Bool
  notes : PyVal String
deriving DecidableEq, Repr

/-- The message dictionary built by `extract_messages` and consumed by
both `insert_message` implementations. -/
structure MsgDict where
  msg_id : PyVal Int
  timestamp : PyVal String
  link : PyVal String
  text : PyVal String
  media : PyVal (List String)
  screenshot : PyVal String
  tags : PyVal (List String)
  notes : PyVal String
deriving DecidableEq, Repr

/-- Errors surfaced by the writers: `ValueError` (missing slug, duplicate
chat_id) and `KeyError` (absent dict key). `main`'s per-chat handler
catches `sqlite3.DatabaseError`, `psycopg2.DatabaseError` and `KeyError`
but not `ValueError`. -/
inductive DBError where
  | valueError : DBError
  | keyError : DBError
deriving DecidableEq, Repr

/-- A row of the SQLite `chats` table from `ensure_tables`:
`id INTEGER PRIMARY KEY AUTOINCREMENT, slug TEXT UNIQUE NOT NULL,
chat_id, type, name, link, joined, is_active, is_member, is_public,
notes`, all nullable. SQLite stores `joined` as text and the booleans as
passed. -/
structure ChatRow where
  id : Nat
  slug : String
  chat_id : Option Int
  type_ : Option String
  name : Option String
  link : Option String
  joined : Option String
  is_active : Option Bool
  is_member : Option Bool
  is_public : Option Bool
  notes : Option String
deriving DecidableEq, Repr

/-- A row of the SQLite `messages` table: `id AUTOINCREMENT, msg_id,
chat_ref_id NOT NULL REFERENCES chats(id), timestamp, link, text, media,
screenshot, tags, notes`, with the partial unique index on
`(chat_ref_id, msg_id) WHERE msg_id IS NOT NULL`. `media` and `tags`
hold `json.dumps` of lists (or of `None`), modelled as the encoded
values. -/
structure MsgRow where
  id : Nat
  msg_id : Option Int
  chat_ref_id : Nat
  timestamp : Option String
  link : Option String
  text : Option String
  media : Option (List String)
  screenshot : Option String
  tags : Option (List String)
  notes : Option String
deriving DecidableEq, Repr

/-- The SQLite store: the two tables plus the AUTOINCREMENT counters. -/
structure SqliteDB where
  chats : List ChatRow
  messages : List MsgRow
  nextChatId : Nat
  nextMsgId : Nat
deriving DecidableEq, Repr

namespace SqliteWriter

/-- The row update performed by `ON CONFLICT(slug) DO UPDATE SET ...` of
`db_writer.insert_chat`: every non-key field is overwritten from the
excluded (incoming) values; the rowid `id` and the key `slug` are kept. -/
def updateRow (r : ChatRow) (chat : ChatDict) : ChatRow :=
  { r with
    chat_id := pyGet chat.chat_id
    type_ := pyGet chat.type_
    name := pyGet chat.name
    link := pyGet chat.link
    joined := pyGet chat.joined
    is_active := pyGet chat.is_active
    is_member := pyGet chat.is_member
    is_public := pyGet chat.is_public
    notes := pyGet chat.notes }

/-- A fresh row inserted by `db_writer.insert_chat` when no row with the
slug exists. -/
def newRow (rid : Nat) (slug : String) (chat : ChatDict) : ChatRow :=
  { id := rid
    slug := slug
    chat_id := pyGet chat.chat_id
    type_ := pyGet chat.type_
    name := pyGet chat.name
    link := pyGet chat.link
    joined := pyGet chat.joined
    is_active := pyGet chat.is_active
    is_member := pyGet chat.is_member
    is_public := pyGet chat.is_public
    notes := pyGet chat.notes }

/-- `db_writer.insert_chat` (src/storage/db_writer.py lines 76-123):
reject a missing/empty slug with `ValueError`; when `chat_id` is present,
reject with `ValueError` if some row holds the same `chat_id` under a
different slug; then `INSERT ... ON CONFLICT(slug) DO UPDATE`. -/
def insert_chat (chat : ChatDict) (db : SqliteDB) : Except DBError SqliteDB :=
  match pyGet chat.slug with
  | none => .error .valueError
  | some slug =>
    if slug = "" then .error .valueError
    else
      let dupId :=
        match pyGet chat.chat_id with
        | some cid => db.chats.any fun r => r.chat_id = some cid && r.slug ≠ slug
        | none => false
      if dupId then .error .valueError
      else if db.chats.any fun r => r.slug = slug then
        .ok { db with chats := db.chats.map fun r =>
                if r.slug = slug then updateRow r chat else r }
      else
        .ok { db with
              chats := db.chats ++ [newRow db.nextChatId slug chat]
              nextChatId := db.nextChatId + 1 }

/-- `db_writer.insert_message` (src/storage/db_writer.py lines 126-162):
when `msg_id` is present and a row with the same `(chat_ref_id, msg_id)`
exists, skip; otherwise insert the row. Never raises. -/
def insert_message (msg : MsgDict) (chat_ref_id : Nat) (db : SqliteDB) :
    SqliteDB :=
  let msg_id := pyGet msg.msg_id
  let dup :=
    match msg_id with
    | some mid =>
      db.messages.any fun r => r.chat_ref_id = chat_ref_id && r.msg_id = some mid
    | none => false
  if dup then db
  else
    { db with
      messages := db.messages ++
        [{ id := db.nextMsgId
           msg_id := msg_id
           chat_ref_id := chat_ref_id
           timestamp := pyGet msg.timestamp
           link := pyGet msg.link
           text := pyGet msg.text
           media := pyGetD msg.media []
           screenshot := pyGet msg.screenshot
           tags := pyGetD msg.tags []
           notes := pyGet msg.notes }]
      nextMsgId := db.nextMsgId + 1 }

/-- `main.get_chat_id_by_slug_sqlite`: `SELECT id FROM chats WHERE slug = ?`;
`ValueError` when the slug is not found. -/
def get_chat_id_by_slug (db : SqliteDB) (slug : String) :
    Except DBError Nat :=
  match db.chats.find? fun r => r.slug = slug with
  | some r => .ok r.id
  | none => .error .valueError

end SqliteWriter

/-- Number of rows of the SQLite `messages` table holding a given
`(chat_ref_id, msg_id)` pair with `msg_id` non-null. -/
def countPair (db : SqliteDB) (chat_ref_id : Nat) (mid : Int) : Nat :=
  (db.messages.filter fun r =>
    r.chat_ref_id = chat_ref_id && r.msg_id = some mid).length

/-- Number of rows of the SQLite `chats` table holding a given slug. -/
def countSlug (db : SqliteDB) (slug : String) : Nat :=
  (db.chats.filter fun r => r.slug = slug).length

/-- The per-row rewrite the ON CONFLICT upsert applies to the chats
table. -/
def upsertMap (slug : String) (chat : ChatDict) (r : ChatRow) : ChatRow :=
  if r.slug = slug then SqliteWriter.updateRow r chat else r

lemma upsertMap_slug (slug : String) (chat : ChatDict) (r : ChatRow) :
    (upsertMap slug chat r).slug = r.slug := by
  unfold upsertMap SqliteWriter.updateRow
  split <;> rfl

lemma filter_upsertMap_nil (slug : String) (chat : ChatDict)
    (l : List ChatRow) (h : slug ∉ l.map ChatRow.slug) :
    (l.map (upsertMap slug chat)).filter (fun r => r.slug = slug) = [] := by
  induction l with
  | nil => rfl
  | cons r t ih =>
    simp only [List.map_cons, List.mem_cons, not_or] at h
    simp only [List.map_cons, List.filter_cons]
    rw [if_neg, ih h.2]
    simp [upsertMap_slug, Ne.symm h.1]

lemma count_upsertMap_one (slug : String) (chat : ChatDict)
    (l : List ChatRow)
    (hnd : (l.map ChatRow.slug).Nodup)
    (hex : l.any (fun r => r.slug = slug) = true) :
    ((l.map (upsertMap slug chat)).filter
      (fun r => r.slug = slug)).length = 1 := by
  induction l with
  | nil => simp at hex
  | cons r t ih =>
    simp only [List.map_cons, List.nodup_cons] at hnd
    by_cases hr : r.slug = slug
    · have hnotin : slug ∉ t.map ChatRow.slug := hr ▸ hnd.1
      simp only [List.map_cons, List.filter_cons, upsertMap_slug, hr]
      rw [if_pos (by simp), filter_upsertMap_nil slug chat t hnotin]
      rfl
    · simp only [List.any_cons, hr, decide_eq_true_eq, Bool.false_or,
        Bool.or_eq_true, decide_eq_true_eq, false_or] at hex
      simp only [List.map_cons, List.filter_cons, upsertMap_slug]
      rw [if_neg (by simpa using hr)]
      exact ih hnd.2 (by simpa using hex)

/-- The SQLite half of claim C3: upserting into a store whose `chats`
table satisfies the UNIQUE(slug) constraint and already holds the slug
keeps the table's length, leaves exactly one row carrying the slug, and
that row's non-key fields all equal the incoming chat's values. -/
lemma sqlite_upsert_single_row (chat : ChatDict) (db db' : SqliteDB)
    (slug : String)
    (hslug : pyGet chat.slug = some slug)
    (hnd : (db.chats.map ChatRow.slug).Nodup)
    (hex : (db.chats.any fun r => r.slug = slug) = true)
    (hok : SqliteWriter.insert_chat chat db = .ok db') :
    db'.chats.length = db.chats.length ∧
    countSlug db' slug = 1 ∧
    ∀ r ∈ db'.chats, r.slug = slug →
      r.chat_id = pyGet chat.chat_id ∧ r.type_ = pyGet chat.type_ ∧
      r.name = pyGet chat.name ∧ r.link = pyGet chat.link ∧
      r.joined = pyGet chat.joined ∧ r.is_active = pyGet chat.is_active ∧
      r.is_member = pyGet chat.is_member ∧
      r.is_public = pyGet chat.is_public ∧ r.notes = pyGet chat.notes := by
  simp only [SqliteWriter.insert_chat, hslug] at hok
  split_ifs at hok with h1 h2
  simp only [Except.ok.injEq] at hok
  subst hok
  refine ⟨by simp, ?_, ?_⟩
  · have := count_upsertMap_one slug chat db.chats hnd hex
    simpa [countSlug, upsertMap] using this
  · intro r hr hrs
    rcases List.mem_map.1 hr with ⟨x, hx, hgx⟩
    by_cases hxs : x.slug = slug
    · have : r = SqliteWriter.updateRow x chat := by
        rw [← hgx]; simp [hxs]
      subst this
      simp [SqliteWriter.updateRow]
    · exfalso
      have : r = x := by rw [← hgx]; simp [hxs]
      exact hxs (this ▸ hrs)

/-- Claim C3 witness: a concrete upsert over a store already holding the
slug "a". -/
def chatC3 : ChatDict :=
  { slug := .val "a", chat_id := .pynone, type_ := .pynone,
    name := .val "A", link := .pynone, joined := .pynone,
    is_active := .val true, is_member := .val true,
    is_public := .pynone, notes := .pynone }

def dbC3 : SqliteDB :=
  { chats := [{ id := 1, slug := "a", chat_id := none, type_ := none,
                name := some "Old", link := none, joined := none,
                is_active := some false, is_member := none,
                is_public := none, notes := none }],
    messages := [], nextChatId := 2, nextMsgId := 1 }

def dbC3' : SqliteDB :=
  { chats := [{ id := 1, slug := "a", chat_id := none, type_ := none,
                name := some "A", link := none, joined := none,
                is_active := some true, is_member := some true,
                is_public := none, notes := none }],
    messages := [], nextChatId := 2, nextMsgId := 1 }

lemma countPair_pos_iff_any (db : SqliteDB) (ref : Nat) (mid : Int) :
    (db.messages.any fun r =>
        r.chat_ref_id = ref && r.msg_id = some mid) = true ↔
    0 < countPair db ref mid := by
  unfold countPair
  rw [← List.countP_eq_length_filter, List.countP_pos_iff, List.any_eq_true]

/-- The SQLite half of claim C4: inserting a message with a non-null
`msg_id` twice into the same store (whose partial unique index bounds
the pair count by one) leaves exactly one row for the
`(chat_ref_id, msg_id)` pair, and the second call is a no-op. -/
lemma sqlite_insert_message_twice (msg : MsgDict) (ref : Nat) (mid : Int)
    (db : SqliteDB)
    (hmid : pyGet msg.msg_id = some mid)
    (hle : countPair db ref mid ≤ 1) :
    countPair (SqliteWriter.insert_message msg ref
        (SqliteWriter.insert_message msg ref db)) ref mid = 1 ∧
    SqliteWriter.insert_message msg ref
        (SqliteWriter.insert_message msg ref db) =
      SqliteWriter.insert_message msg ref db := by
  have hq : ∀ d : SqliteDB, SqliteWriter.insert_message msg ref d =
      if (d.messages.any fun r =>
            r.chat_ref_id = ref && r.msg_id = some mid) = true then d
      else
        { d with
          messages := d.messages ++
            [{ id := d.nextMsgId
               msg_id := some mid
               chat_ref_id := ref
               timestamp := pyGet msg.timestamp
               link := pyGet msg.link
               text := pyGet msg.text
               media := pyGetD msg.media []
               screenshot := pyGet msg.screenshot
               tags := pyGetD msg.tags []
               notes := pyGet msg.notes }]
          nextMsgId := d.nextMsgId + 1 } := by
    intro d
    simp only [SqliteWriter.insert_message, hmid]
  rcases Nat.le_one_iff_eq_zero_or_eq_one.mp hle with h0 | h1
  · have hany : (db.messages.any fun r =>
        r.chat_ref_id = ref && r.msg_id = some mid) = false := by
      rw [← Bool.not_eq_true, countPair_pos_iff_any, h0]
      simp
    have hdb1 : SqliteWriter.insert_message msg ref db =
        { db with
          messages := db.messages ++
            [{ id := db.nextMsgId
               msg_id := some mid
               chat_ref_id := ref
               timestamp := pyGet msg.timestamp
               link := pyGet msg.link
               text := pyGet msg.text
               media := pyGetD msg.media []
               screenshot := pyGet msg.screenshot
               tags := pyGetD msg.tags []
               notes := pyGet msg.notes }]
          nextMsgId := db.nextMsgId + 1 } := by
      rw [hq db, hany]; simp
    have hcount1 : countPair (SqliteWriter.insert_message msg ref db) ref mid
        = 1 := by
      rw [hdb1]
      unfold countPair at h0 ⊢
      simp only [List.filter_append, List.length_append, h0]
      simp [List.filter]
    have hany1 : ((SqliteWriter.insert_message msg ref db).messages.any
        fun r => r.chat_ref_id = ref && r.msg_id = some mid) = true := by
      rw [countPair_pos_iff_any, hcount1]
      exact Nat.one_pos
    have hdb2 : SqliteWriter.insert_message msg ref
        (SqliteWriter.insert_message msg ref db) =
        SqliteWriter.insert_message msg ref db := by
      rw [hq (SqliteWriter.insert_message msg ref db), if_pos hany1]
    exact ⟨by rw [hdb2, hcount1], hdb2⟩
  · have hany : (db.messages.any fun r =>
        r.chat_ref_id = ref && r.msg_id = some mid) = true := by
      rw [countPair_pos_iff_any, h1]
      exact Nat.one_pos
    have hdb1 : SqliteWriter.insert_message msg ref db = db := by
      rw [hq db, if_pos hany]
    rw [hdb1, hdb1]
    exact ⟨h1, rfl⟩

/-- The message of the spec's example, `(conversation_ref = 5,
msg_id = 42)`. -/
def msgC4 : MsgDict :=
  { msg_id := .val 42, timestamp := .val "2023-03-01T10:00:00Z",
    link := .pynone, text := .val "hi", media := .pynone,
    screenshot := .pynone, tags := .val [], notes := .pynone }

def dbC4 : SqliteDB :=
  { chats := [], messages := [], nextChatId := 1, nextMsgId := 1 }

/-- Proleptic-Gregorian leap year test. -/
def isLeap (y : Int) : Bool :=
  y % 4 = 0 && (y % 100 ≠ 0 || y % 400 = 0)

/-- Days in a month of the proleptic Gregorian calendar. -/
def daysInMonth (y : Int) (m : Nat) : Nat :=
  if m = 2 then (if isLeap y then 29 else 28)
  else if m = 4 || m = 6 || m = 9 || m = 11 then 30
  else 31

/-- A calendar date as held in the PostgreSQL `joined DATE` column. -/
structure PgDate where
  year : Int
  month : Nat
  day : Nat
deriving DecidableEq, Repr

/-- A Python `datetime` value at second granularity: civil fields plus an
optional fixed UTC offset in minutes (`None` models a naive datetime). -/
structure PyDateTime where
  year : Int
  month : Nat
  day : Nat
  hour : Nat
  minute : Nat
  second : Nat
  tz : Option Int
deriving DecidableEq, Repr

/-- Numeric value of a decimal digit character. -/
def digitVal (c : Char) : Option Nat :=
  if c.isDigit then some (c.toNat - 48) else none

/-- Value of a fixed-width all-decimal-digit character run. -/
def decDigits : List Char → Option Nat
  | [] => some 0
  | c :: cs => do
    let d ← digitVal c
    let r ← decDigits cs
    pure (d * 10 ^ cs.length + r)

/-- `date.fromisoformat` on the canonical `YYYY-MM-DD` layout the
pipeline itself produces: ten characters, digits and dashes in place, a
real calendar date; anything else is a `ValueError`. -/
def fromisoformat_date (s : String) : Option PgDate :=
  match s.toList with
  | [y1, y2, y3, y4, '-', m1, m2, '-', d1, d2] => do
    let y ← decDigits [y1, y2, y3, y4]
    let m ← decDigits [m1, m2]
    let d ← decDigits [d1, d2]
    if 1 ≤ m && m ≤ 12 && 1 ≤ d && d ≤ daysInMonth (Int.ofNat y) m then
      pure { year := Int.ofNat y, month := m, day := d }
    else none
  | _ => none

/-- `db_pg_writer.parse_iso_date`: `None` passes through, a string that
`date.fromisoformat` rejects is logged and becomes `None`. -/
def parse_iso_date (datestr : Option String) : Option PgDate :=
  match datestr with
  | none => none
  | some s => fromisoformat_date s

/-- The time-of-day / offset tail of `datetime.fromisoformat`:
`HH:MM:SS` optionally followed by `+HH:MM` or `-HH:MM`. -/
def fromisoformat_tail (cs : List Char) :
    Option (Nat × Nat × Nat × Option Int) :=
  match cs with
  | [h1, h2, ':', m1, m2, ':', s1, s2] => do
    let h ← decDigits [h1, h2]
    let mi ← decDigits [m1, m2]
    let s ← decDigits [s1, s2]
    if h ≤ 23 && mi ≤ 59 && s ≤ 59 then pure (h, mi, s, none) else none
  | [h1, h2, ':', m1, m2, ':', s1, s2, sign, o1, o2, ':', o3, o4] => do
    let h ← decDigits [h1, h2]
    let mi ← decDigits [m1, m2]
    let s ← decDigits [s1, s2]
    let oh ← decDigits [o1, o2]
    let om ← decDigits [o3, o4]
    if h ≤ 23 && mi ≤ 59 && s ≤ 59 && oh ≤ 23 && om ≤ 59 then
      match sign with
      | '+' => pure (h, mi, s, some (Int.ofNat (oh * 60 + om)))
      | '-' => pure (h, mi, s, some (-(Int.ofNat (oh * 60 + om))))
      | _ => none
    else none
  | _ => none

/-- `datetime.fromisoformat` on the layouts the pipeline produces: a bare
date, or a date, a `T`/space separator and `HH:MM:SS` with an optional
`±HH:MM` offset. -/
def fromisoformat_datetime (s : String) : Option PyDateTime :=
  let cs := s.toList
  match fromisoformat_date (String.mk (cs.take 10)) with
  | none => none
  | some d =>
    match cs.drop 10 with
    | [] => some { year := d.year, month := d.month, day := d.day,
                   hour := 0, minute := 0, second := 0, tz := none }
    | sep :: rest =>
      if sep = 'T' || sep = ' ' then
        match fromisoformat_tail rest with
        | some (h, mi, sec, off) =>
          some { year := d.year, month := d.month, day := d.day,
                 hour := h, minute := mi, second := sec, tz := off }
        | none => none
      else none

/-- `db_pg_writer.parse_timestamp`: replace `Z` with `+00:00`, then
`datetime.fromisoformat`; a rejected string is logged and becomes
`None`. -/
def parse_timestamp (ts : Option String) : Option PyDateTime :=
  match ts with
  | none => none
  | some s => fromisoformat_datetime (s.replace "Z" "+00:00")

/-- A row of the PostgreSQL `chats` table: `id SERIAL PRIMARY KEY,
slug TEXT UNIQUE NOT NULL, chat_id BIGINT, type, name, link,
joined DATE, is_active, is_member, is_public BOOLEAN, notes`. -/
structure PgChatRow where
  id : Nat
  slug : String
  chat_id : Option Int
  type_ : Option String
  name : Option String
  link : Option String
  joined : Option PgDate
  is_active : Option Bool
  is_member : Option Bool
  is_public : Option Bool
  notes : Option String
deriving DecidableEq, Repr

/-- A row of the PostgreSQL `messages` table; `timestamp TIMESTAMPTZ`
holds the value produced by `parse_timestamp`. -/
structure PgMsgRow where
  id : Nat
  msg_id : Option Int
  chat_ref_id : Nat
  timestamp : Option PyDateTime
  link : Option String
  text : Option String
  media : Option (List String)
  screenshot : Option String
  tags : Option (List String)
  notes : Option String
deriving DecidableEq, Repr

/-- The PostgreSQL store: the two tables plus the SERIAL counters. -/
structure PgDB where
  chats : List PgChatRow
  messages : List PgMsgRow
  nextChatId : Nat
  nextMsgId : Nat
deriving DecidableEq, Repr

namespace PgWriter

/-- The row update performed by `ON CONFLICT (slug) DO UPDATE SET ...` of
`db_pg_writer.insert_chat`, applied to the already-fetched VALUES. -/
def updateRow (r : PgChatRow) (cid : Option Int) (ty nm lk : Option String)
    (jd : Option PgDate) (ia im ip : Option Bool) (nt : Option String) :
    PgChatRow :=
  { r with
    chat_id := cid, type_ := ty, name := nm, link := lk, joined := jd,
    is_active := ia, is_member := im, is_public := ip, notes := nt }

/-- `db_pg_writer.insert_chat` (src/storage/db_pg_writer.py lines
99-145): the same slug and duplicate-chat_id validation as the SQLite
writer, but the VALUES tuple reads `chat["chat_id"]`, `chat["type"]`,
`chat["name"]`, `chat["is_active"]`, `chat["is_member"]` and
`chat["is_public"]` with item access — a `KeyError` on an absent key —
while `link`, `joined` and `notes` use `.get`, and `joined` goes through
`parse_iso_date`.  The tuple is evaluated left to right before the
upsert executes. -/
def insert_chat (chat : ChatDict) (db : PgDB) : Except DBError PgDB := do
  match pyGet chat.slug with
  | none => .error .valueError
  | some slug =>
    if slug = "" then .error .valueError
    else
      let dupId :=
        match pyGet chat.chat_id with
        | some cid => db.chats.any fun r => r.chat_id = some cid && r.slug ≠ slug
        | none => false
      if dupId then .error .valueError
      else do
        let _ ← (pyItem chat.slug).mapError fun _ => DBError.keyError
        let cid ← (pyItem chat.chat_id).mapError fun _ => DBError.keyError
        let ty ← (pyItem chat.type_).mapError fun _ => DBError.keyError
        let nm ← (pyItem chat.name).mapError fun _ => DBError.keyError
        let lk := pyGet chat.link
        let jd := parse_iso_date (pyGet chat.joined)
        let ia ← (pyItem chat.is_active).mapError fun _ => DBError.keyError
        let im ← (pyItem chat.is_member).mapError fun _ => DBError.keyError
        let ip ← (pyItem chat.is_public).mapError fun _ => DBError.keyError
        let nt := pyGet chat.notes
        if db.chats.any fun r => r.slug = slug then
          .ok { db with chats := db.chats.map fun r =>
                  if r.slug = slug then updateRow r cid ty nm lk jd ia im ip nt
                  else r }
        else
          .ok { db with
                chats := db.chats ++
                  [{ id := db.nextChatId, slug := slug, chat_id := cid,
                     type_ := ty, name := nm, link := lk, joined := jd,
                     is_active := ia, is_member := im, is_public := ip,
                     notes := nt }]
                nextChatId := db.nextChatId + 1 }

/-- `db_pg_writer.insert_message` (src/storage/db_pg_writer.py lines
148-186): parse the timestamp, skip when the `(chat_ref_id, msg_id)`
pair already exists, otherwise insert. Never raises. -/
def insert_message (msg : MsgDict) (chat_ref_id : Nat) (db : PgDB) : PgDB :=
  let timestamp := parse_timestamp (pyGet msg.timestamp)
  let msg_id := pyGet msg.msg_id
  let dup :=
    match msg_id with
    | some mid =>
      db.messages.any fun r => r.chat_ref_id = chat_ref_id && r.msg_id = some mid
    | none => false
  if dup then db
  else
    { db with
      messages := db.messages ++
        [{ id := db.nextMsgId
           msg_id := msg_id
           chat_ref_id := chat_ref_id
           timestamp := timestamp
           link := pyGet msg.link
           text := pyGet msg.text
           media := pyGetD msg.media []
           screenshot := pyGet msg.screenshot
           tags := pyGetD msg.tags []
           notes := pyGet msg.notes }]
      nextMsgId := db.nextMsgId + 1 }

/-- `main.get_chat_id_by_slug_pg`: `SELECT id FROM chats WHERE slug = %s`;
`ValueError` when the slug is not found. -/
def get_chat_id_by_slug (db : PgDB) (slug : String) : Except DBError Nat :=
  match db.chats.find? fun r => r.slug = slug with
  | some r => .ok r.id
  | none => .error .valueError

end PgWriter

/-- Whether `main`'s per-chat `except (sqlite3.DatabaseError,
PGDatabaseError, KeyError)` handler catches an error: `KeyError` yes,
`ValueError` no. -/
def caught : DBError → Bool
  | .keyError => true
  | .valueError => false

/-- The body of one iteration of `main`'s write loop
(src/main.py lines 120-144) with message extraction supplied as data:
insert the chat into both stores, resolve its internal id in each, then
insert every message into both; on success the new store states are the
states the two `commit()` calls persist. -/
def processChat (chat : ChatDict) (msgs : List MsgDict)
    (s : SqliteDB) (p : PgDB) : Except DBError (SqliteDB × PgDB) := do
  let s1 ← SqliteWriter.insert_chat chat s
  let p1 ← PgWriter.insert_chat chat p
  let slugv ← (pyItem chat.slug).mapError fun _ => DBError.keyError
  let sid ← match slugv with
    | some sl => SqliteWriter.get_chat_id_by_slug s1 sl
    | none => .error .valueError
  let pid ← match slugv with
    | some sl => PgWriter.get_chat_id_by_slug p1 sl
    | none => .error .valueError
  let s2 := msgs.foldl (fun d m => SqliteWriter.insert_message m sid d) s1
  let p2 := msgs.foldl (fun d m => PgWriter.insert_message m pid d) p1
  .ok (s2, p2)

/-- Outcome of the write loop: a normal finish, or a crash from an
uncaught exception; either way the last committed store states are
carried. -/
inductive RunResult where
  | done : SqliteDB → PgDB → RunResult
  | crashed : SqliteDB → PgDB → DBError → RunResult
deriving DecidableEq, Repr

/-- `main`'s per-conversation write loop (src/main.py lines 120-151):
a caught exception rolls both stores back to their last committed state
and continues with the next chat; an uncaught exception terminates the
run, losing the current chat's uncommitted work and never reaching the
remaining chats. -/
def runLoop : List (ChatDict × List MsgDict) → SqliteDB → PgDB → RunResult
  | [], s, p => .done s p
  | (c, ms) :: rest, s, p =>
    match processChat c ms s p with
    | .ok (s', p') => runLoop rest s' p'
    | .error e => if caught e then runLoop rest s p else .crashed s p e

/-- Python `str` whitespace, as stripped by `str.strip()`. -/
def isPySpace (c : Char) : Bool :=
  c = ' ' || c = '\t' || c = '\n' || c = '\r' || c = '\x0b' || c = '\x0c'

/-- `str.strip()`: drop leading and trailing whitespace. -/
def pyStrip (s : String) : String :=
  String.mk (((s.toList.dropWhile isPySpace).reverse.dropWhile
    isPySpace).reverse)

/-- `str.lower()` on one character, covering the alphabets this pipeline
sees: ASCII letters and the Ukrainian Cyrillic block. -/
def pyLowerChar (c : Char) : Char :=
  if 'A' ≤ c && c ≤ 'Z' then Char.ofNat (c.toNat + 32)
  else if 'А' ≤ c && c ≤ 'Я' then Char.ofNat (c.toNat + 32)
  else if c = 'Ґ' then 'ґ'
  else if c = 'Є' then 'є'
  else if c = 'І' then 'і'
  else if c = 'Ї' then 'ї'
  else c

/-- `str.lower()` on the alphabets above. -/
def pyLower (s : String) : String :=
  String.mk (s.toList.map pyLowerChar)

instance {e a : Type} [DecidableEq e] [DecidableEq a] :
    DecidableEq (Except e a) := fun x y =>
  match x, y with
  | .ok u, .ok v =>
    if h : u = v then .isTrue (by rw [h]) else .isFalse (by simp [h])
  | .error u, .error v =>
    if h : u = v then .isTrue (by rw [h]) else .isFalse (by simp [h])
  | .ok _, .error _ => .isFalse (by simp)
  | .error _, .ok _ => .isFalse (by simp)

/-- The record-building tail of `extract_chats`
(src/extractors/chat_extractor.py lines 87-124): the operator's typed
answers become explicit arguments (`.strip().lower()` is modelled for
the ASCII answers the prompt expects).  `is_active` is true unless the
answer is `n`; `is_member` is asked only while active and is forced to
`False` otherwise; `type` and `notes` are set to `None`; no `is_public`
key is ever put in the dictionary. -/
def buildChatRecord (slug : String) (chat_id : Option Int) (name : String)
    (link : Option String) (joined : Option String)
    (active_answer member_answer : String) : ChatDict :=
  let is_active := pyLower (pyStrip active_answer) ≠ "n"
  let is_member :=
    if is_active then pyLower (pyStrip member_answer) ≠ "n" else false
  { slug := .val slug
    chat_id := match chat_id with | some n => .val n | none => .pynone
    type_ := .pynone
    name := .val name
    link := match link with | some l => .val l | none => .pynone
    joined := match joined with | some j => .val j | none => .pynone
    is_active := .val is_active
    is_member := .val is_member
    is_public := .absent
    notes := .pynone }

/-- A freshly initialized SQLite store after `ensure_tables`. -/
def emptySqlite : SqliteDB :=
  { chats := [], messages := [], nextChatId := 1, nextMsgId := 1 }

/-- A freshly initialized PostgreSQL store after `ensure_tables`. -/
def emptyPg : PgDB :=
  { chats := [], messages := [], nextChatId := 1, nextMsgId := 1 }

/-- A conversation record exactly as `extract_chats` emits it: `type`
and `notes` are `None`, the flags come from empty (default) answers, and
the `is_public` key is absent. -/
def chatC2 : ChatDict :=
  buildChatRecord "alpha" none "Alpha" none (some "2023-03-01") "" ""

/-- The SQLite store after `insert_chat` accepts `chatC2`. -/
def dbC2sqlite : SqliteDB :=
  { chats := [{ id := 1, slug := "alpha", chat_id := none, type_ := none,
                name := some "Alpha", link := none,
                joined := some "2023-03-01", is_active := some true,
                is_member := some true, is_public := none, notes := none }],
    messages := [], nextChatId := 2, nextMsgId := 1 }

/-- Claim C2: the two backends do not implement identical semantics.  On
the very record the pipeline's own extractor produces (no `is_public`
key), the SQLite `insert_chat` succeeds — storing NULL for `is_public`
via `.get` — while the PostgreSQL `insert_chat` raises `KeyError` from
`chat["is_public"]`: the same input on equally empty stores yields
success in one backend and an error in the other. -/
theorem backend_semantics_diverge :
    SqliteWriter.insert_chat chatC2 emptySqlite = .ok dbC2sqlite ∧
    PgWriter.insert_chat chatC2 emptyPg = .error .keyError :=
  ⟨by rfl, by rfl⟩

/-- A conversation record with every key present (the shape §3 of the
spec describes), used to drive the write loop. -/
def chatA : ChatDict :=
  { slug := .val "a", chat_id := .val 1, type_ := .pynone,
    name := .val "A", link := .pynone, joined := .pynone,
    is_active := .val true, is_member := .val true,
    is_public := .val true, notes := .pynone }

/-- A second conversation whose `chat_id` collides with `chatA`'s under a
different slug. -/
def chatB : ChatDict :=
  { slug := .val "b", chat_id := .val 1, type_ := .pynone,
    name := .val "B", link := .pynone, joined := .pynone,
    is_active := .val true, is_member := .val true,
    is_public := .val true, notes := .pynone }

/-- A third, unrelated conversation with no `chat_id`. -/
def chatC : ChatDict :=
  { slug := .val "c", chat_id := .pynone, type_ := .pynone,
    name := .val "C", link := .pynone, joined := .pynone,
    is_active := .val true, is_member := .val true,
    is_public := .val true, notes := .pynone }

/-- Both stores after `chatA`'s conversation committed. -/
def sAfterA : SqliteDB :=
  { chats := [{ id := 1, slug := "a", chat_id := some 1, type_ := none,
                name := some "A", link := none, joined := none,
                is_active := some true, is_member := some true,
                is_public := some true, notes := none }],
    messages := [], nextChatId := 2, nextMsgId := 1 }

def pAfterA : PgDB :=
  { chats := [{ id := 1, slug := "a", chat_id := some 1, type_ := none,
                name := some "A", link := none, joined := none,
                is_active := some true, is_member := some true,
                is_public := some true, notes := none }],
    messages := [], nextChatId := 2, nextMsgId := 1 }

/-- Claim C1 counterexample: in the run `[chatA, chatB, chatC]`, where
`chatB`'s `chat_id` collides with `chatA`'s, the collision's
`ValueError` is not caught by the loop's `except` clause: the run
crashes, and the unrelated `chatC` is committed to neither store. -/
theorem chat_id_conflict_crashes_run :
    runLoop [(chatA, []), (chatB, []), (chatC, [])] emptySqlite emptyPg =
      .crashed sAfterA pAfterA .valueError ∧
    (sAfterA.chats.any fun r => r.slug = "c") = false ∧
    (pAfterA.chats.any fun r => r.slug = "c") = false :=
  ⟨rfl, rfl, rfl⟩

lemma runLoop_append (xs ys : List (ChatDict × List MsgDict))
    (s : SqliteDB) (p : PgDB) :
    runLoop (xs ++ ys) s p =
      match runLoop xs s p with
      | .done s' p' => runLoop ys s' p'
      | .crashed s' p' e => .crashed s' p' e := by
  induction xs generalizing s p with
  | nil => rfl
  | cons hd tl ih =>
    obtain ⟨c, ms⟩ := hd
    simp only [List.cons_append, runLoop]
    cases h : processChat c ms s p with
    | ok sp =>
      obtain ⟨s', p'⟩ := sp
      exact ih s' p'
    | error e =>
      cases hc : caught e
      · simp [hc]
      · simp [hc, ih]

/-- Claim C1 (amended): a conversation whose `chat_id` is already claimed
by a different slug raises a `ValueError` that `main`'s per-chat handler
does not catch: the conversations committed before it keep their
commits, but the run crashes at that conversation and every later
conversation is never written to either store. -/
theorem chat_id_conflict_aborts_rest_of_run
    (xs ys : List (ChatDict × List MsgDict)) (c : ChatDict)
    (ms : List MsgDict) (s s' : SqliteDB) (p p' : PgDB)
    (hpre : runLoop xs s p = .done s' p')
    (hbad : processChat c ms s' p' = .error .valueError) :
    runLoop (xs ++ (c, ms) :: ys) s p = .crashed s' p' .valueError := by
  rw [runLoop_append, hpre]
  simp [runLoop, hbad, caught]

/-- Claim C1 witness: the amended statement at the concrete three-chat
run. -/
theorem chat_id_conflict_aborts_rest_of_run_witness :
    runLoop ([(chatA, [])] ++ (chatB, []) :: [(chatC, [])])
      emptySqlite emptyPg = .crashed sAfterA pAfterA .valueError :=
  chat_id_conflict_aborts_rest_of_run [(chatA, [])] [(chatC, [])] chatB []
    emptySqlite sAfterA emptyPg pAfterA rfl rfl

/-- Days between a proleptic-Gregorian civil date and 1970-01-01
(Howard Hinnant's `days_from_civil`). -/
def daysFromCivil (y : Int) (m d : Nat) : Int :=
  let y' : Int := if m ≤ 2 then y - 1 else y
  let era : Int := Int.fdiv y' 400
  let yoe : Int := y' - era * 400
  let mp : Nat := if m > 2 then m - 3 else m + 9
  let doy : Nat := (153 * mp + 2) / 5 + d - 1
  let doe : Int := yoe * 365 + Int.fdiv yoe 4 - Int.fdiv yoe 100 + doy
  era * 146097 + doe - 719468

/-- Civil date of a day count since 1970-01-01 (Hinnant's
`civil_from_days`). -/
def civilFromDays (z0 : Int) : Int × Nat × Nat :=
  let z : Int := z0 + 719468
  let era : Int := Int.fdiv z 146097
  let doe : Nat := (z - era * 146097).toNat
  let yoe : Nat := (doe - doe / 1460 + doe / 36524 - doe / 146096) / 365
  let y : Int := Int.ofNat yoe + era * 400
  let doy : Nat := doe - (365 * yoe + yoe / 4 - yoe / 100)
  let mp : Nat := (5 * doy + 2) / 153
  let d : Nat := doy - (153 * mp + 2) / 5 + 1
  let m : Nat := if mp < 10 then mp + 3 else mp - 9
  (if m ≤ 2 then y + 1 else y, m, d)

/-- Zero-padded two-digit rendering. -/
def pad2 (n : Nat) : String :=
  if n < 10 then "0" ++ toString n else toString n

/-- Zero-padded four-digit rendering (`isoformat` year field). -/
def pad4 (n : Nat) : String :=
  if n < 10 then "000" ++ toString n
  else if n < 100 then "00" ++ toString n
  else if n < 1000 then "0" ++ toString n
  else toString n

/-- `date.isoformat()`: `YYYY-MM-DD`. -/
def dateIso (y : Int) (m d : Nat) : String :=
  pad4 y.toNat ++ "-" ++ pad2 m ++ "-" ++ pad2 d

/-- `time_utils.to_utc_iso`: convert an aware datetime to UTC and render
`YYYY-MM-DDTHH:MM:SSZ` (`astimezone(utc).isoformat().replace('+00:00',
'Z')`).  Every call site passes an aware value; a missing offset is read
as zero. -/
def to_utc_iso (dt : PyDateTime) : String :=
  let off : Int := dt.tz.getD 0
  let total : Int := daysFromCivil dt.year dt.month dt.day * 86400 +
    Int.ofNat (dt.hour * 3600 + dt.minute * 60 + dt.second) - off * 60
  let days : Int := Int.fdiv total 86400
  let rem : Nat := (total - days * 86400).toNat
  match civilFromDays days with
  | (y, m, d) =>
    dateIso y m d ++ "T" ++ pad2 (rem / 3600) ++ ":" ++
      pad2 (rem % 3600 / 60) ++ ":" ++ pad2 (rem % 60) ++ "Z"

/-- `time_utils.parse_datetime` (src/extractors/time_utils.py lines
28-74), with the two library parsers' results on the stripped input text
passed in explicitly: `isoRes` is what `dateutil.parser.isoparse` returns
(or `none` for a `ValueError`); `lenientRes` is what
`dateutil_parser.parse(text, dayfirst=day_first)` returns (or `none`);
`default_tz` is the `pytz` zone's `localize`, mapping a naive civil time
to its fixed UTC offset in minutes.  Control flow as in the source:
the strict ISO branch localizes when naive and always converts to a full
UTC instant (ignoring `date_only`); the fallback branch returns the bare
calendar date when `date_only` is set, returns `...T00:00:00Z` without
any zone conversion when the parsed time is exactly midnight, and
otherwise localizes naive values and converts. -/
def parse_datetime (isoRes lenientRes : Option PyDateTime)
    (default_tz : PyDateTime → Int) (date_only : Bool) : Option String :=
  match isoRes with
  | some dt =>
    let dt' := match dt.tz with
      | none => { dt with tz := some (default_tz dt) }
      | some _ => dt
    some (to_utc_iso dt')
  | none =>
    match lenientRes with
    | some dt =>
      if date_only then some (dateIso dt.year dt.month dt.day)
      else if dt.hour = 0 && dt.minute = 0 && dt.second = 0 then
        some (dateIso dt.year dt.month dt.day ++ "T00:00:00Z")
      else
        let dt' := match dt.tz with
          | none => { dt with tz := some (default_tz dt) }
          | some _ => dt
        some (to_utc_iso dt')
    | none => none

/-- `isoparse("2023-03-01")`: a naive midnight datetime. -/
def isoMarch1 : PyDateTime :=
  { year := 2023, month := 3, day := 1, hour := 0, minute := 0,
    second := 0, tz := none }

/-- The configured default zone (`Europe/Kyiv`) at 2023-03-01 00:00
local: UTC+02:00 (winter time), as `pytz`'s `localize` assigns it. -/
def kyivWinter : PyDateTime → Int := fun _ => 120

/-- Claim C5 counterexample: on the ISO-parseable input `2023-03-01`
with the default zone at UTC+02:00 and `date_only` set, `parse_datetime`
takes the strict ISO branch, which ignores `date_only`, localizes, and
converts to UTC: it returns the full instant `2023-02-28T22:00:00Z` —
the calendar date written in the input has shifted a day and the result
is not `YYYY-MM-DD`. -/
theorem date_only_iso_branch_shifts_date :
    parse_datetime (some isoMarch1) none kyivWinter true =
      some "2023-02-28T22:00:00Z" ∧
    parse_datetime (some isoMarch1) none kyivWinter true ≠
      some "2023-03-01" := by
  constructor
  · decide
  · decide

/-- Claim C5 (amended): date-only mode behaves as specified only for
inputs the strict ISO parser rejects: there the lenient parse's calendar
date is returned as `YYYY-MM-DD` with no zone conversion, identically
for every default zone.  (An ISO-shaped input instead ignores
`date_only` and is converted to a full UTC instant, which can shift the
calendar date.) -/
theorem date_only_fallback_never_shifts (dt : PyDateTime)
    (tz tz' : PyDateTime → Int) :
    parse_datetime none (some dt) tz true =
      some (dateIso dt.year dt.month dt.day) ∧
    parse_datetime none (some dt) tz true =
      parse_datetime none (some dt) tz' true := by
  have h : ∀ f : PyDateTime → Int, parse_datetime none (some dt) f true =
      some (dateIso dt.year dt.month dt.day) := fun _ => rfl
  exact ⟨h tz, (h tz).trans (h tz').symm⟩

/-- Claim C10: an input rejected by strict ISO parsing but accepted by
the lenient parser with time-of-day exactly 00:00 is returned (in full
mode) as the parsed date suffixed `T00:00:00Z`, with no localization to
the default timezone: the result is the same under every default zone. -/
theorem fallback_midnight_emitted_as_utc (dt : PyDateTime)
    (tz tz' : PyDateTime → Int)
    (h : dt.hour = 0 ∧ dt.minute = 0 ∧ dt.second = 0) :
    parse_datetime none (some dt) tz false =
      some (dateIso dt.year dt.month dt.day ++ "T00:00:00Z") ∧
    parse_datetime none (some dt) tz false =
      parse_datetime none (some dt) tz' false := by
  obtain ⟨h1, h2, h3⟩ := h
  constructor <;> simp [parse_datetime, h1, h2, h3]

/-- Claim C10 witness: the midnight fallback at `01.03.2023` parsed
leniently to naive 2023-03-01 00:00, under zones UTC+02:00 and UTC. -/
theorem fallback_midnight_emitted_as_utc_witness :
    parse_datetime none (some isoMarch1) kyivWinter false =
      some (dateIso isoMarch1.year isoMarch1.month isoMarch1.day ++
        "T00:00:00Z") ∧
    parse_datetime none (some isoMarch1) kyivWinter false =
      parse_datetime none (some isoMarch1) (fun _ => 0) false :=
  fallback_midnight_emitted_as_utc isoMarch1 kyivWinter (fun _ => 0)
    ⟨rfl, rfl, rfl⟩

/-- UTF-8 encoding of one code point. -/
def utf8Char (c : Char) : List Nat :=
  let n := c.toNat
  if n < 128 then [n]
  else if n < 2048 then [192 ||| (n >>> 6), 128 ||| (n &&& 63)]
  else if n < 65536 then
    [224 ||| (n >>> 12), 128 ||| ((n >>> 6) &&& 63), 128 ||| (n &&& 63)]
  else
    [240 ||| (n >>> 18), 128 ||| ((n >>> 12) &&& 63),
     128 ||| ((n >>> 6) &&& 63), 128 ||| (n &&& 63)]

/-- `str.encode("utf-8")` as a byte list. -/
def utf8Bytes (s : String) : List Nat :=
  s.toList.flatMap utf8Char

/-- 32-bit left rotation. -/
def rotl32 (n x : Nat) : Nat :=
  ((x <<< n) ||| (x >>> (32 - n))) % 4294967296

/-- Big-endian byte rendering of `n` on `k` bytes. -/
def bytesBE : Nat → Nat → List Nat
  | 0, _ => []
  | k + 1, n => bytesBE k (n >>> 8) ++ [n % 256]

/-- SHA-1 message padding: `0x80`, zeros to 56 mod 64, then the bit
length on eight big-endian bytes. -/
def sha1Pad (msg : List Nat) : List Nat :=
  let padZeros := (119 - msg.length % 64) % 64
  msg ++ [128] ++ List.replicate padZeros 0 ++ bytesBE 8 (msg.length * 8)

/-- Big-endian 32-bit words of a byte list. -/
def toWords : List Nat → List Nat
  | b0 :: b1 :: b2 :: b3 :: rest =>
    ((((b0 <<< 8) ||| b1) <<< 8 ||| b2) <<< 8 ||| b3) :: toWords rest
  | _ => []

/-- Extend the 16-word schedule to 80 words. -/
def sha1Extend : Nat → Array Nat → Array Nat
  | 0, a => a
  | k + 1, a =>
    let i := a.size
    let w := rotl32 1 (a.getD (i - 3) 0 ^^^ a.getD (i - 8) 0 ^^^
      a.getD (i - 14) 0 ^^^ a.getD (i - 16) 0)
    sha1Extend k (a.push w)

/-- SHA-1 round function for round `i`. -/
def sha1F (i b c d : Nat) : Nat :=
  if i < 20 then (b &&& c) ||| ((b ^^^ 4294967295) &&& d)
  else if i < 40 then b ^^^ c ^^^ d
  else if i < 60 then (b &&& c) ||| (b &&& d) ||| (c &&& d)
  else b ^^^ c ^^^ d

/-- SHA-1 round constant for round `i`. -/
def sha1K (i : Nat) : Nat :=
  if i < 20 then 1518500249
  else if i < 40 then 1859775393
  else if i < 60 then 2400959708
  else 3395469782

/-- One SHA-1 block compression. -/
def sha1Compress (h : Nat × Nat × Nat × Nat × Nat) (block : List Nat) :
    Nat × Nat × Nat × Nat × Nat :=
  let w := sha1Extend 64 (toWords block).toArray
  let (h0, h1, h2, h3, h4) := h
  let st := (List.range 80).foldl
    (fun (st : Nat × Nat × Nat × Nat × Nat) i =>
      let (a, b, c, d, e) := st
      let t := (rotl32 5 a + sha1F i b c d + e + sha1K i + w.getD i 0) %
        4294967296
      (t, a, rotl32 30 b, c, d))
    (h0, h1, h2, h3, h4)
  let (a, b, c, d, e) := st
  ((h0 + a) % 4294967296, (h1 + b) % 4294967296, (h2 + c) % 4294967296,
   (h3 + d) % 4294967296, (h4 + e) % 4294967296)

/-- Process the padded message 64 bytes at a time (the fuel bounds the
number of blocks; it is structural so the definition evaluates). -/
def sha1Blocks : Nat → List Nat → (Nat × Nat × Nat × Nat × Nat) →
    Nat × Nat × Nat × Nat × Nat
  | 0, _, h => h
  | _ + 1, [], h => h
  | fuel + 1, l, h => sha1Blocks fuel (l.drop 64) (sha1Compress h (l.take 64))

/-- Lowercase hexadecimal digit. -/
def hexDigit : Nat → Char
  | 0 => '0' | 1 => '1' | 2 => '2' | 3 => '3' | 4 => '4'
  | 5 => '5' | 6 => '6' | 7 => '7' | 8 => '8' | 9 => '9'
  | 10 => 'a' | 11 => 'b' | 12 => 'c' | 13 => 'd' | 14 => 'e'
  | _ => 'f'

/-- Eight hex characters of a 32-bit word, most significant first. -/
def hexWord (n : Nat) : List Char :=
  [hexDigit ((n >>> 28) &&& 15), hexDigit ((n >>> 24) &&& 15),
   hexDigit ((n >>> 20) &&& 15), hexDigit ((n >>> 16) &&& 15),
   hexDigit ((n >>> 12) &&& 15), hexDigit ((n >>> 8) &&& 15),
   hexDigit ((n >>> 4) &&& 15), hexDigit (n &&& 15)]

/-- `hashlib.sha1(s.encode("utf-8")).hexdigest()`. -/
def sha1Hexdigest (s : String) : String :=
  let msg := sha1Pad (utf8Bytes s)
  let (h0, h1, h2, h3, h4) := sha1Blocks (msg.length + 1) msg
    (1732584193, 4023233417, 2562383102, 271733878, 3285377520)
  String.mk (hexWord h0 ++ hexWord h1 ++ hexWord h2 ++ hexWord h3 ++
    hexWord h4)

/-- `hashlib.sha1(...).hexdigest()[:6]`, the hash fragment `slugify`
appends. -/
def sha1Hex6 (s : String) : String :=
  String.mk ((sha1Hexdigest s).toList.take 6)

/-- The `CYR_TO_LAT` transliteration table of
`src/extractors/slugify_utils.py`. -/
def CYR_TO_LAT (c : Char) : Option String :=
  match c with
  | 'а' => some "a" | 'б' => some "b" | 'в' => some "v" | 'г' => some "h"
  | 'ґ' => some "g" | 'д' => some "d" | 'е' => some "e" | 'є' => some "ie"
  | 'ж' => some "zh" | 'з' => some "z" | 'и' => some "y" | 'і' => some "i"
  | 'ї' => some "i" | 'й' => some "y" | 'к' => some "k" | 'л' => some "l"
  | 'м' => some "m" | 'н' => some "n" | 'о' => some "o" | 'п' => some "p"
  | 'р' => some "r" | 'с' => some "s" | 'т' => some "t" | 'у' => some "u"
  | 'ф' => some "f" | 'х' => some "kh" | 'ц' => some "ts" | 'ч' => some "ch"
  | 'ш' => some "sh" | 'щ' => some "shch" | 'ь' => some "" | 'ю' => some "iu"
  | 'я' => some "ia"
  | _ => none

/-- `slugify_utils.transliterate`: lowercase, then map each character
through `CYR_TO_LAT`, unmapped characters passing through. -/
def transliterate (text : String) : String :=
  String.join ((pyLower text).toList.map fun c =>
    match CYR_TO_LAT c with
    | some t => t
    | none => String.mk [c])

/-- A character the `re.sub(r"[^a-z0-9 ]", "", ...)` step keeps. -/
def isSlugChar (c : Char) : Bool :=
  ('a' ≤ c && c ≤ 'z') || ('0' ≤ c && c ≤ '9') || c = ' '

/-- `str.isalnum()` on the `[a-z0-9_]` strings `base_slug` ranges
over. -/
def isAsciiAlnum (c : Char) : Bool :=
  ('a' ≤ c && c ≤ 'z') || ('A' ≤ c && c ≤ 'Z') || ('0' ≤ c && c ≤ '9')

/-- Whitespace-run splitting, as `str.split()` with no arguments. -/
def splitGo : List Char → List Char → List String
  | [], cur => if cur = [] then [] else [String.mk cur.reverse]
  | c :: cs, cur =>
    if isPySpace c then
      if cur = [] then splitGo cs []
      else String.mk cur.reverse :: splitGo cs []
    else splitGo cs (c :: cur)

/-- `str.split()`. -/
def pySplit (s : String) : List String :=
  splitGo s.toList []

/-- The `base_slug` computation of `slugify_utils.slugify` (lines
48-53): NFKD-normalize (the normalizer is an explicit argument),
transliterate, strip everything outside `[a-z0-9 ]`, split on
whitespace, and join the first `max_words` tokens with underscores. -/
def slugBase (nfkd : String → String) (text : String) (max_words : Nat) :
    String :=
  String.intercalate "_"
    ((pySplit (pyStrip (String.mk
      ((transliterate (nfkd text)).toList.filter isSlugChar)))).take
      max_words)

/-- `slugify_utils.slugify` (src/extractors/slugify_utils.py lines
32-69), with `unicodedata.normalize("NFKD", ·)` passed in as `nfkd`:
fall back to `"chat_" + sha1[:6]` when the base slug is empty or has no
alphanumeric character; otherwise append `"_" + sha1[:6]` only when a
used-slug set is supplied and the base collides with it; finally
register the returned slug in the set (modelled as a duplicate-free
list).  The collision check happens once: the disambiguated candidate
and the hash fallback are not themselves re-checked. -/
def slugify (nfkd : String → String) (text : String) (max_words : Nat)
    (used_slugs : Option (List String)) : String × Option (List String) :=
  let original_text := text
  let base_slug := slugBase nfkd original_text max_words
  let slug :=
    if base_slug = "" || !(base_slug.toList.any isAsciiAlnum) then
      "chat_" ++ sha1Hex6 original_text
    else
      match used_slugs with
      | some used =>
        if base_slug ∈ used then base_slug ++ "_" ++ sha1Hex6 original_text
        else base_slug
      | none => base_slug
  match used_slugs with
  | some used => (slug, some (if slug ∈ used then used else used ++ [slug]))
  | none => (slug, none)

/-- A run of `slugify` calls sharing one `used_slugs` set, as
`extract_chats` performs over the conversation names of one document
(`slugify`'s default `max_words = 3`). -/
def slugRun (nfkd : String → String) :
    List String → List String → List String × List String
  | [], used => ([], used)
  | t :: ts, used =>
    let res := slugify nfkd t 3 (some used)
    let rest := slugRun nfkd ts (res.2.getD used)
    (res.1 :: rest.1, rest.2)

/-- Whether every call of the run returns a slug not yet registered at
the moment of its call. -/
def freshRun (nfkd : String → String) :
    List String → List String → Bool
  | [], _ => true
  | t :: ts, used =>
    let res := slugify nfkd t 3 (some used)
    if res.1 ∈ used then false
    else freshRun nfkd ts (res.2.getD used)

/-- `unicodedata.normalize("NFKD", ·)` acts as the identity on the
ASCII inputs used in the concrete runs below. -/
def nfkdAscii : String → String := fun s => s

set_option maxRecDepth 10000 in
/-- Claim C6 counterexample: three conversations named `a` sharing one
run's used-slug set.  The second call disambiguates to `a_86f7e4` and
registers it, but the third call's single collision check again produces
`a_86f7e4` without noticing it is already registered: the returned slugs
are not pairwise distinct. -/
theorem slug_run_repeated_name_collides :
    (slugRun nfkdAscii ["a", "a", "a"] []).1 =
      ["a", "a_86f7e4", "a_86f7e4"] ∧
    ¬ (slugRun nfkdAscii ["a", "a", "a"] []).1.Nodup := by
  have h : (slugRun nfkdAscii ["a", "a", "a"] []).1 =
      ["a", "a_86f7e4", "a_86f7e4"] := by decide
  exact ⟨h, by rw [h]; decide⟩

lemma slugify_snd (nfkd : String → String) (t : String) (mw : Nat)
    (used : List String) :
    (slugify nfkd t mw (some used)).2 =
      some (if (slugify nfkd t mw (some used)).1 ∈ used then used
            else used ++ [(slugify nfkd t mw (some used)).1]) := rfl

/-- Claim C6 (amended): the slugs of one run are pairwise distinct (and
new to the run) provided each call's final candidate — the base slug,
the hash-disambiguated base, or the hash fallback — is itself not yet
registered at the time of the call; the call then registers it.  (A
candidate that is already registered, e.g. when a name repeats a third
time, is returned as a duplicate: the collision check runs only once.) -/
theorem slug_run_fresh_pairwise_distinct (nfkd : String → String)
    (ts : List String) (used : List String)
    (h : freshRun nfkd ts used = true) :
    (slugRun nfkd ts used).1.Nodup ∧
    ∀ s ∈ (slugRun nfkd ts used).1, s ∉ used := by
  induction ts generalizing used with
  | nil => simp [slugRun]
  | cons t ts ih =>
    by_cases hm : (slugify nfkd t 3 (some used)).1 ∈ used
    · simp [freshRun, hm] at h
    · simp only [freshRun, hm, if_neg, if_false] at h
      have hused : (slugify nfkd t 3 (some used)).2.getD used =
          used ++ [(slugify nfkd t 3 (some used)).1] := by
        rw [slugify_snd]
        simp [hm]
      rw [hused] at h
      obtain ⟨hnd, hnotin⟩ :=
        ih (used ++ [(slugify nfkd t 3 (some used)).1]) h
      simp only [slugRun, hused]
      constructor
      · rw [List.nodup_cons]
        refine ⟨fun hmem => ?_, hnd⟩
        exact hnotin _ hmem (by simp)
      · intro s hs
        rcases List.mem_cons.1 hs with rfl | hs'
        · exact hm
        · intro hsu
          exact hnotin s hs' (List.mem_append_left _ hsu)

set_option maxRecDepth 10000 in
/-- Claim C6 witness: the run `a`, `b`, `a` from the empty set is fresh
at every call (the repeated `a` is disambiguated to `a_86f7e4`), so its
slugs are pairwise distinct. -/
theorem slug_run_fresh_pairwise_distinct_witness :
    freshRun nfkdAscii ["a", "b", "a"] [] = true ∧
    (slugRun nfkdAscii ["a", "b", "a"] []).1.Nodup :=
  ⟨by decide,
   (slug_run_fresh_pairwise_distinct nfkdAscii ["a", "b", "a"] []
     (by decide)).1⟩

/-- Claim C7: `slugify` is deterministic.  It is a pure function of its
arguments, and its result depends on the prior used-slug state only
through membership: two calls with the same text and `max_words` over
used-sets with the same members return the identical slug. -/
theorem slugify_deterministic (nfkd : String → String) (t : String)
    (mw : Nat) (u1 u2 : List String) (h : ∀ x, x ∈ u1 ↔ x ∈ u2) :
    (slugify nfkd t mw (some u1)).1 = (slugify nfkd t mw (some u2)).1 := by
  have fst_eq : ∀ u : List String, (slugify nfkd t mw (some u)).1 =
      (if slugBase nfkd t mw = "" ||
          !((slugBase nfkd t mw).toList.any isAsciiAlnum) then
        "chat_" ++ sha1Hex6 t
      else if slugBase nfkd t mw ∈ u then
        slugBase nfkd t mw ++ "_" ++ sha1Hex6 t
      else slugBase nfkd t mw) := fun u => rfl
  rw [fst_eq u1, fst_eq u2]
  by_cases hf : slugBase nfkd t mw = "" ||
      !((slugBase nfkd t mw).toList.any isAsciiAlnum)
  · rw [if_pos hf, if_pos hf]
  · rw [if_neg hf, if_neg hf]
    by_cases hm : slugBase nfkd t mw ∈ u1
    · rw [if_pos hm, if_pos ((h _).1 hm)]
    · rw [if_neg hm, if_neg (fun hx => hm ((h _).2 hx))]

set_option maxRecDepth 10000 in
/-- Claim C7 witness: the same text over two orderings of the same
used-slug set. -/
theorem slugify_deterministic_witness :
    (slugify nfkdAscii "x" 3 (some ["x", "y"])).1 =
      (slugify nfkdAscii "x" 3 (some ["y", "x"])).1 :=
  slugify_deterministic nfkdAscii "x" 3 ["x", "y"] ["y", "x"]
    (fun x => by constructor <;> intro hx <;> simp_all <;> tauto)

/-- Decimal value of a decimal-digit (Unicode category Nd) character,
over the modelled repertoire: ASCII `0`-`9` and the Arabic-Indic digits
`٠`-`٩`. -/
def decimalDigitVal (c : Char) : Option Nat :=
  if '0' ≤ c && c ≤ '9' then some (c.toNat - 48)
  else if 1632 ≤ c.toNat && c.toNat ≤ 1641 then some (c.toNat - 1632)
  else none

/-- A digit-class character with no decimal value: `str.isdigit()`
accepts it but `int()` rejects it (the superscript digits of the
modelled repertoire). -/
def isSuperscriptDigit (c : Char) : Bool :=
  c = '¹' || c = '²' || c = '³'

/-- The character repertoire on which the digit model agrees with
Python's `str.isdigit` and `int`: all of ASCII, the Arabic-Indic
decimal digits and the superscript digits. -/
def modeledChar (c : Char) : Bool :=
  c.toNat < 128 || (1632 ≤ c.toNat && c.toNat ≤ 1641) ||
    isSuperscriptDigit c

/-- `str.isdigit()`: non-empty and every character of digit class —
decimal digits, and also digit-class characters such as superscripts
that `int()` cannot parse. -/
def pyIsdigit (s : String) : Bool :=
  s ≠ "" && s.toList.all fun c =>
    (decimalDigitVal c).isSome || isSuperscriptDigit c

/-- `int(...)` on an `isdigit`-true string: the base-10 value of its
decimal digits, or a `ValueError` when some character (for example a
superscript such as `²`) has no decimal value. -/
def pyInt (s : String) : Except Unit Int :=
  if s = "" then .error ()
  else
    match s.toList.mapM decimalDigitVal with
    | some ds => .ok (Int.ofNat (ds.foldl (fun a d => a * 10 + d) 0))
    | none => .error ()

/-- The `<a>` element found inside a message id cell: its display text
and optional `href`. -/
structure IdLink where
  text : String
  href : Option String
deriving DecidableEq, Repr

/-- The id/link extraction of `extract_messages`
(src/extractors/message_extractor.py lines 46-57): prefer the embedded
link's text, fall back to the cell's own text, call `int(...)` exactly
when the chosen text passes `isdigit()` — so a digit-class text that
`int` cannot parse raises a `ValueError` out of extraction — and take
`link` from the embedded `href` when present. -/
def extractIdAndLink (id_link : Option IdLink) (cell_text : String) :
    Except Unit (Option Int × Option String) := do
  let msg_id ←
    match id_link with
    | some lnk =>
      if pyIsdigit (pyStrip lnk.text) then do
        let v ← pyInt (pyStrip lnk.text)
        pure (some v)
      else if pyIsdigit (pyStrip cell_text) then do
        let v ← pyInt (pyStrip cell_text)
        pure (some v)
      else pure none
    | none =>
      if pyIsdigit (pyStrip cell_text) then do
        let v ← pyInt (pyStrip cell_text)
        pure (some v)
      else pure none
  let msg_link :=
    match id_link with
    | some lnk => lnk.href
    | none => none
  pure (msg_id, msg_link)

/-- Claim C8 counterexample: the superscript digit `²` passes
`str.isdigit()` but has no decimal value, so `int("²")` raises a
`ValueError`: extraction raises instead of yielding a null `msg_id`
without error — and `main`'s per-chat handler does not catch
`ValueError`. -/
theorem msg_id_superscript_raises :
    pyIsdigit (pyStrip "²") = true ∧
    extractIdAndLink none "²" = .error () :=
  ⟨rfl, rfl⟩

/-- Claim C8 (amended): over the modelled repertoire, an id text that
fails `isdigit()` yields a null `msg_id` with no error, the `link`
still taken from the embedded hyperlink when one is present; an id text
that passes `isdigit()` is handed to `int(...)`, which returns its
decimal value — or raises `ValueError` when the text is digit-class but
not decimal (e.g. superscripts). -/
theorem msg_id_digits_only :
    (∀ (lnk : IdLink) (ct : String),
       lnk.text.toList.all modeledChar = true →
       ct.toList.all modeledChar = true →
       pyIsdigit (pyStrip lnk.text) = false →
       pyIsdigit (pyStrip ct) = false →
       extractIdAndLink (some lnk) ct = .ok (none, lnk.href)) ∧
    (∀ ct : String,
       ct.toList.all modeledChar = true →
       pyIsdigit (pyStrip ct) = false →
       extractIdAndLink none ct = .ok (none, none)) ∧
    (∀ ct : String, pyIsdigit (pyStrip ct) = true →
       extractIdAndLink none ct =
         (pyInt (pyStrip ct)).map fun v => (some v, none)) := by
  refine ⟨fun lnk ct hm1 hm2 h1 h2 => ?_, fun ct hm h => ?_,
    fun ct h => ?_⟩
  · simp [extractIdAndLink, h1, h2]
    rfl
  · simp [extractIdAndLink, h]
    rfl
  · cases hv : pyInt (pyStrip ct) <;>
      simp [extractIdAndLink, h, hv, Except.map]

/-- Claim C8 witness: the spec's example, id cell text `abc123` with an
embedded hyperlink. -/
theorem msg_id_digits_only_witness :
    extractIdAndLink (some { text := "abc123", href := some "https://x/42" })
      "abc123" = .ok (none, some "https://x/42") :=
  msg_id_digits_only.1 { text := "abc123", href := some "https://x/42" }
    "abc123" (by decide) (by decide) (by decide) (by decide)

/-- Claim C9 counterexample: the record built for a chat whose activity
answer is `n` (and whose member prompt therefore never runs): no
`is_public` key exists at all, and `is_member` is `False` although the
operator never negated it. -/
theorem extraction_record_lacks_is_public :
    (buildChatRecord "a" none "A" none none "n" "").is_public =
      PyVal.absent ∧
    (buildChatRecord "a" none "A" none none "n" "").is_member =
      PyVal.val false :=
  ⟨rfl, rfl⟩

/-- Claim C9 (amended): every record produced by extraction carries the
two booleans `is_active` and `is_member` and no `is_public` at all;
`is_active` defaults to true unless the answer is `n`; `is_member`
defaults to true unless its answer is `n` while active, and is forced to
`False` whenever the chat is inactive. -/
theorem chat_flags_defaults (slug : String) (cid : Option Int)
    (name : String) (link joined : Option String) (aAns mAns : String) :
    (buildChatRecord slug cid name link joined aAns mAns).is_public =
      PyVal.absent ∧
    (pyLower (pyStrip aAns) ≠ "n" →
      (buildChatRecord slug cid name link joined aAns mAns).is_active =
        PyVal.val true ∧
      ((buildChatRecord slug cid name link joined aAns mAns).is_member =
        PyVal.val true ↔ pyLower (pyStrip mAns) ≠ "n")) ∧
    (pyLower (pyStrip aAns) = "n" →
      (buildChatRecord slug cid name link joined aAns mAns).is_active =
        PyVal.val false ∧
      (buildChatRecord slug cid name link joined aAns mAns).is_member =
        PyVal.val false) := by
  refine ⟨rfl, fun h => ?_, fun h => ?_⟩
  · constructor
    · simp [buildChatRecord, h]
    · by_cases hm : pyLower (pyStrip mAns) = "n" <;>
        simp [buildChatRecord, h, hm]
  · simp [buildChatRecord, h]

/-- Claim C9 witness: the amended statement at default (empty) answers. -/
theorem chat_flags_defaults_witness :
    (buildChatRecord "a" none "A" none none "" "").is_active =
      PyVal.val true ∧
    (buildChatRecord "a" none "A" none none "" "").is_member =
      PyVal.val true := by
  have h := (chat_flags_defaults "a" none "A" none none "" "").2.1
    (by decide)
  exact ⟨h.1, h.2.mpr (by decide)⟩

lemma pyItem_of_pyGet {α : Type} {v : PyVal α} {a : α}
    (h : pyGet v = some a) : pyItem v = .ok (some a) := by
  cases v with
  | absent => simp [pyGet] at h
  | pynone => simp [pyGet] at h
  | val b =>
    simp [pyGet] at h
    simp [pyItem, h]

lemma except_mapError_ok {e e' a : Type} (f : e → e') (x : a) :
    Except.mapError f (.ok x : Except e a) = .ok x := rfl

lemma except_bind_ok {e a b : Type} (x : a) (f : a → Except e b) :
    ((.ok x : Except e a) >>= f) = f x := rfl

/-- Number of rows of the PostgreSQL `chats` table holding a given
slug. -/
def countSlugPg (db : PgDB) (slug : String) : Nat :=
  (db.chats.filter fun r => r.slug = slug).length

/-- Number of rows of the PostgreSQL `messages` table holding a given
`(chat_ref_id, msg_id)` pair with `msg_id` non-null. -/
def countPairPg (db : PgDB) (chat_ref_id : Nat) (mid : Int) : Nat :=
  (db.messages.filter fun r =>
    r.chat_ref_id = chat_ref_id && r.msg_id = some mid).length

/-- The per-row rewrite the PostgreSQL ON CONFLICT upsert applies. -/
def upsertMapPg (slug : String) (cid : Option Int) (ty nm lk : Option String)
    (jd : Option PgDate) (ia im ip : Option Bool) (nt : Option String)
    (r : PgChatRow) : PgChatRow :=
  if r.slug = slug then PgWriter.updateRow r cid ty nm lk jd ia im ip nt
  else r

lemma upsertMapPg_slug (slug : String) (cid : Option Int)
    (ty nm lk : Option String) (jd : Option PgDate) (ia im ip : Option Bool)
    (nt : Option String) (r : PgChatRow) :
    (upsertMapPg slug cid ty nm lk jd ia im ip nt r).slug = r.slug := by
  unfold upsertMapPg PgWriter.updateRow
  split <;> rfl

lemma filter_upsertMapPg_nil (slug : String) (cid : Option Int)
    (ty nm lk : Option String) (jd : Option PgDate) (ia im ip : Option Bool)
    (nt : Option String) (l : List PgChatRow)
    (h : slug ∉ l.map PgChatRow.slug) :
    (l.map (upsertMapPg slug cid ty nm lk jd ia im ip nt)).filter
      (fun r => r.slug = slug) = [] := by
  induction l with
  | nil => rfl
  | cons r t ih =>
    simp only [List.map_cons, List.mem_cons, not_or] at h
    simp only [List.map_cons, List.filter_cons]
    rw [if_neg, ih h.2]
    simp [upsertMapPg_slug, Ne.symm h.1]

lemma count_upsertMapPg_one (slug : String) (cid : Option Int)
    (ty nm lk : Option String) (jd : Option PgDate) (ia im ip : Option Bool)
    (nt : Option String) (l : List PgChatRow)
    (hnd : (l.map PgChatRow.slug).Nodup)
    (hex : l.any (fun r => r.slug = slug) = true) :
    ((l.map (upsertMapPg slug cid ty nm lk jd ia im ip nt)).filter
      (fun r => r.slug = slug)).length = 1 := by
  induction l with
  | nil => simp at hex
  | cons r t ih =>
    simp only [List.map_cons, List.nodup_cons] at hnd
    by_cases hr : r.slug = slug
    · have hnotin : slug ∉ t.map PgChatRow.slug := hr ▸ hnd.1
      simp only [List.map_cons, List.filter_cons, upsertMapPg_slug, hr]
      rw [if_pos (by simp),
        filter_upsertMapPg_nil slug cid ty nm lk jd ia im ip nt t hnotin]
      rfl
    · simp only [List.any_cons, hr, decide_eq_true_eq, Bool.or_eq_true,
        false_or] at hex
      simp only [List.map_cons, List.filter_cons, upsertMapPg_slug]
      rw [if_neg (by simpa using hr)]
      exact ih hnd.2 (by simpa using hex)

/-- The PostgreSQL half of claim C3: under the same UNIQUE(slug)
invariant, with every item-accessed key present, a successful
`insert_chat` over a store already holding the slug keeps the table's
length, leaves exactly one row carrying the slug, and that row holds
the incoming chat's values (with `joined` as `parse_iso_date` of the
incoming text, exactly as the writer stores it). -/
lemma pg_upsert_single_row (chat : ChatDict) (p p' : PgDB) (slug : String)
    (cid : Option Int) (ty nm : Option String) (ia im ip : Option Bool)
    (hslug : pyGet chat.slug = some slug)
    (hcid : pyItem chat.chat_id = .ok cid)
    (hty : pyItem chat.type_ = .ok ty)
    (hnm : pyItem chat.name = .ok nm)
    (hia : pyItem chat.is_active = .ok ia)
    (him : pyItem chat.is_member = .ok im)
    (hip : pyItem chat.is_public = .ok ip)
    (hnd : (p.chats.map PgChatRow.slug).Nodup)
    (hex : (p.chats.any fun r => r.slug = slug) = true)
    (hok : PgWriter.insert_chat chat p = .ok p') :
    p'.chats.length = p.chats.length ∧
    countSlugPg p' slug = 1 ∧
    ∀ r ∈ p'.chats, r.slug = slug →
      r.chat_id = cid ∧ r.type_ = ty ∧ r.name = nm ∧
      r.link = pyGet chat.link ∧
      r.joined = parse_iso_date (pyGet chat.joined) ∧
      r.is_active = ia ∧ r.is_member = im ∧ r.is_public = ip ∧
      r.notes = pyGet chat.notes := by
  have hslugItem := pyItem_of_pyGet hslug
  simp only [PgWriter.insert_chat, hslug, hslugItem, hcid, hty, hnm, hia,
    him, hip, except_mapError_ok, except_bind_ok] at hok
  split_ifs at hok with h1 h2
  simp only [Except.ok.injEq] at hok
  subst hok
  refine ⟨by simp, ?_, ?_⟩
  · have := count_upsertMapPg_one slug cid ty nm (pyGet chat.link)
      (parse_iso_date (pyGet chat.joined)) ia im ip (pyGet chat.notes)
      p.chats hnd hex
    simpa [countSlugPg, upsertMapPg] using this
  · intro r hr hrs
    rcases List.mem_map.1 hr with ⟨x, hx, hgx⟩
    by_cases hxs : x.slug = slug
    · have : r = PgWriter.updateRow x cid ty nm (pyGet chat.link)
          (parse_iso_date (pyGet chat.joined)) ia im ip
          (pyGet chat.notes) := by
        rw [← hgx]; simp [hxs]
      subst this
      simp [PgWriter.updateRow]
    · exfalso
      have : r = x := by rw [← hgx]; simp [hxs]
      exact hxs (this ▸ hrs)

/-- Claim C3: in both backends, upserting a conversation into a store
whose `chats` table satisfies the UNIQUE(slug) constraint and already
holds a row with the same slug never creates a second row: each table
keeps its length, exactly one row carries the slug, and that row's
non-key fields carry the incoming chat's values (PostgreSQL reads the
item-accessed fields and stores `joined` through `parse_iso_date`,
exactly as `db_pg_writer.insert_chat` writes them). -/
theorem upsert_chat_single_row (chat : ChatDict) (s s' : SqliteDB)
    (p p' : PgDB) (slug : String) (cid : Option Int)
    (ty nm : Option String) (ia im ip : Option Bool)
    (hslug : pyGet chat.slug = some slug)
    (hcid : pyItem chat.chat_id = .ok cid)
    (hty : pyItem chat.type_ = .ok ty)
    (hnm : pyItem chat.name = .ok nm)
    (hia : pyItem chat.is_active = .ok ia)
    (him : pyItem chat.is_member = .ok im)
    (hip : pyItem chat.is_public = .ok ip)
    (hnds : (s.chats.map ChatRow.slug).Nodup)
    (hexs : (s.chats.any fun r => r.slug = slug) = true)
    (hoks : SqliteWriter.insert_chat chat s = .ok s')
    (hndp : (p.chats.map PgChatRow.slug).Nodup)
    (hexp : (p.chats.any fun r => r.slug = slug) = true)
    (hokp : PgWriter.insert_chat chat p = .ok p') :
    (s'.chats.length = s.chats.length ∧
     countSlug s' slug = 1 ∧
     ∀ r ∈ s'.chats, r.slug = slug →
       r.chat_id = pyGet chat.chat_id ∧ r.type_ = pyGet chat.type_ ∧
       r.name = pyGet chat.name ∧ r.link = pyGet chat.link ∧
       r.joined = pyGet chat.joined ∧ r.is_active = pyGet chat.is_active ∧
       r.is_member = pyGet chat.is_member ∧
       r.is_public = pyGet chat.is_public ∧
       r.notes = pyGet chat.notes) ∧
    (p'.chats.length = p.chats.length ∧
     countSlugPg p' slug = 1 ∧
     ∀ r ∈ p'.chats, r.slug = slug →
       r.chat_id = cid ∧ r.type_ = ty ∧ r.name = nm ∧
       r.link = pyGet chat.link ∧
       r.joined = parse_iso_date (pyGet chat.joined) ∧
       r.is_active = ia ∧ r.is_member = im ∧ r.is_public = ip ∧
       r.notes = pyGet chat.notes) :=
  ⟨sqlite_upsert_single_row chat s s' slug hslug hnds hexs hoks,
   pg_upsert_single_row chat p p' slug cid ty nm ia im ip hslug hcid hty
     hnm hia him hip hndp hexp hokp⟩

/-- The PostgreSQL store of the claim C3 witness, already holding the
slug "a". -/
def pgC3 : PgDB :=
  { chats := [{ id := 1, slug := "a", chat_id := none, type_ := none,
                name := some "Old", link := none, joined := none,
                is_active := some false, is_member := none,
                is_public := none, notes := none }],
    messages := [], nextChatId := 2, nextMsgId := 1 }

def pgC3' : PgDB :=
  { chats := [{ id := 1, slug := "a", chat_id := none, type_ := none,
                name := some "A", link := none, joined := none,
                is_active := some true, is_member := some true,
                is_public := none, notes := none }],
    messages := [], nextChatId := 2, nextMsgId := 1 }

/-- Claim C3 witness: the same concrete upsert against both stores, each
already holding the slug "a". -/
theorem upsert_chat_single_row_witness :
    (dbC3'.chats.length = dbC3.chats.length ∧
     countSlug dbC3' "a" = 1 ∧
     ∀ r ∈ dbC3'.chats, r.slug = "a" →
       r.chat_id = pyGet chatC3.chat_id ∧ r.type_ = pyGet chatC3.type_ ∧
       r.name = pyGet chatC3.name ∧ r.link = pyGet chatC3.link ∧
       r.joined = pyGet chatC3.joined ∧
       r.is_active = pyGet chatC3.is_active ∧
       r.is_member = pyGet chatC3.is_member ∧
       r.is_public = pyGet chatC3.is_public ∧
       r.notes = pyGet chatC3.notes) ∧
    (pgC3'.chats.length = pgC3.chats.length ∧
     countSlugPg pgC3' "a" = 1 ∧
     ∀ r ∈ pgC3'.chats, r.slug = "a" →
       r.chat_id = none ∧ r.type_ = none ∧ r.name = some "A" ∧
       r.link = pyGet chatC3.link ∧
       r.joined = parse_iso_date (pyGet chatC3.joined) ∧
       r.is_active = some true ∧ r.is_member = some true ∧
       r.is_public = none ∧ r.notes = pyGet chatC3.notes) :=
  upsert_chat_single_row chatC3 dbC3 dbC3' pgC3 pgC3' "a" none none
    (some "A") (some true) (some true) none rfl rfl rfl rfl rfl rfl rfl
    (by decide) (by decide) rfl (by decide) (by decide) rfl

lemma countPairPg_pos_iff_any (db : PgDB) (ref : Nat) (mid : Int) :
    (db.messages.any fun r =>
        r.chat_ref_id = ref && r.msg_id = some mid) = true ↔
    0 < countPairPg db ref mid := by
  unfold countPairPg
  rw [← List.countP_eq_length_filter, List.countP_pos_iff, List.any_eq_true]

/-- The PostgreSQL half of claim C4: `db_pg_writer.insert_message` skips
an already-present `(chat_ref_id, msg_id)` pair, so a double insert
leaves exactly one row for the pair and the second call is a no-op. -/
lemma pg_insert_message_twice (msg : MsgDict) (ref : Nat) (mid : Int)
    (db : PgDB)
    (hmid : pyGet msg.msg_id = some mid)
    (hle : countPairPg db ref mid ≤ 1) :
    countPairPg (PgWriter.insert_message msg ref
        (PgWriter.insert_message msg ref db)) ref mid = 1 ∧
    PgWriter.insert_message msg ref
        (PgWriter.insert_message msg ref db) =
      PgWriter.insert_message msg ref db := by
  have hq : ∀ d : PgDB, PgWriter.insert_message msg ref d =
      if (d.messages.any fun r =>
            r.chat_ref_id = ref && r.msg_id = some mid) = true then d
      else
        { d with
          messages := d.messages ++
            [{ id := d.nextMsgId
               msg_id := some mid
               chat_ref_id := ref
               timestamp := parse_timestamp (pyGet msg.timestamp)
               link := pyGet msg.link
               text := pyGet msg.text
               media := pyGetD msg.media []
               screenshot := pyGet msg.screenshot
               tags := pyGetD msg.tags []
               notes := pyGet msg.notes }]
          nextMsgId := d.nextMsgId + 1 } := by
    intro d
    simp only [PgWriter.insert_message, hmid]
  rcases Nat.le_one_iff_eq_zero_or_eq_one.mp hle with h0 | h1
  · have hany : (db.messages.any fun r =>
        r.chat_ref_id = ref && r.msg_id = some mid) = false := by
      rw [← Bool.not_eq_true, countPairPg_pos_iff_any, h0]
      simp
    have hdb1 : PgWriter.insert_message msg ref db =
        { db with
          messages := db.messages ++
            [{ id := db.nextMsgId
               msg_id := some mid
               chat_ref_id := ref
               timestamp := parse_timestamp (pyGet msg.timestamp)
               link := pyGet msg.link
               text := pyGet msg.text
               media := pyGetD msg.media []
               screenshot := pyGet msg.screenshot
               tags := pyGetD msg.tags []
               notes := pyGet msg.notes }]
          nextMsgId := db.nextMsgId + 1 } := by
      rw [hq db, hany]; simp
    have hcount1 : countPairPg (PgWriter.insert_message msg ref db) ref mid
        = 1 := by
      rw [hdb1]
      unfold countPairPg at h0 ⊢
      simp only [List.filter_append, List.length_append, h0]
      simp [List.filter]
    have hany1 : ((PgWriter.insert_message msg ref db).messages.any
        fun r => r.chat_ref_id = ref && r.msg_id = some mid) = true := by
      rw [countPairPg_pos_iff_any, hcount1]
      exact Nat.one_pos
    have hdb2 : PgWriter.insert_message msg ref
        (PgWriter.insert_message msg ref db) =
        PgWriter.insert_message msg ref db := by
      rw [hq (PgWriter.insert_message msg ref db), if_pos hany1]
    exact ⟨by rw [hdb2, hcount1], hdb2⟩
  · have hany : (db.messages.any fun r =>
        r.chat_ref_id = ref && r.msg_id = some mid) = true := by
      rw [countPairPg_pos_iff_any, h1]
      exact Nat.one_pos
    have hdb1 : PgWriter.insert_message msg ref db = db := by
      rw [hq db, if_pos hany]
    rw [hdb1, hdb1]
    exact ⟨h1, rfl⟩

/-- Claim C4: in both backends, for a message with a non-null `msg_id`,
inserting it twice against the same store (whose partial unique index
bounds the pair count by one) results in exactly one stored row for the
`(chat_ref_id, msg_id)` pair; the second call detects the existing pair
and skips it as an idempotent no-op, not an error. -/
theorem insert_message_twice_unique (msg : MsgDict) (ref : Nat) (mid : Int)
    (s : SqliteDB) (p : PgDB)
    (hmid : pyGet msg.msg_id = some mid)
    (hles : countPair s ref mid ≤ 1)
    (hlep : countPairPg p ref mid ≤ 1) :
    (countPair (SqliteWriter.insert_message msg ref
        (SqliteWriter.insert_message msg ref s)) ref mid = 1 ∧
     SqliteWriter.insert_message msg ref
        (SqliteWriter.insert_message msg ref s) =
       SqliteWriter.insert_message msg ref s) ∧
    (countPairPg (PgWriter.insert_message msg ref
        (PgWriter.insert_message msg ref p)) ref mid = 1 ∧
     PgWriter.insert_message msg ref
        (PgWriter.insert_message msg ref p) =
       PgWriter.insert_message msg ref p) :=
  ⟨sqlite_insert_message_twice msg ref mid s hmid hles,
   pg_insert_message_twice msg ref mid p hmid hlep⟩

/-- Claim C4 witness: the spec's example, `(conversation_ref = 5,
msg_id = 42)` inserted twice into both empty stores. -/
theorem insert_message_twice_unique_witness :
    (countPair (SqliteWriter.insert_message msgC4 5
        (SqliteWriter.insert_message msgC4 5 dbC4)) 5 42 = 1 ∧
     SqliteWriter.insert_message msgC4 5
        (SqliteWriter.insert_message msgC4 5 dbC4) =
       SqliteWriter.insert_message msgC4 5 dbC4) ∧
    (countPairPg (PgWriter.insert_message msgC4 5
        (PgWriter.insert_message msgC4 5 emptyPg)) 5 42 = 1 ∧
     PgWriter.insert_message msgC4 5
        (PgWriter.insert_message msgC4 5 emptyPg) =
       PgWriter.insert_message msgC4 5 emptyPg) :=
  insert_message_twice_unique msgC4 5 42 dbC4 emptyPg rfl (by decide)
    (by decide)
